import Mathlib

/-!
Verification of the `codechain-web-wallet` HD keystore and chain reducer.

The definitions below are a shallow embedding of `src/model/keystore.ts`
and `src/redux/chain/chainReducer.ts`.  External collaborators (the
`codechain-keystore` vault, the `codechain-sdk` address encoders, the
indexer API and the local storage layer) are modelled as injected
function-valued parameters gathered in `KeystoreEnv`; the keystore logic
itself (index allocation, scanning, truncation, record construction) is
translated statement by statement from the source.
-/

namespace CodechainWallet

/-- Role tag of an address or stored key (`src/model/address.ts`). -/
inductive AddressType where
  | Platform
  | Asset
deriving DecidableEq

/-- A persisted key record (`StoredKey` of `src/utils/storage.ts`):
`{ pathIndex, type, key }` where `key` is the blake160 fingerprint of the
derived public key. -/
structure StoredKey where
  pathIndex : Nat
  type : AddressType
  key : String
deriving DecidableEq

/-- A wallet address as returned to the UI (`WalletAddress` of
`src/model/address.ts`): `{ name, address, type }`. -/
structure WalletAddress where
  name : String
  address : String
  type : AddressType
deriving DecidableEq

/-- The external collaborators of `keystore.ts`, injected as opaque
functions: seed-based public key derivation (`ccKey.hdwseed
.getPublicKeyFromSeed`, taking a derivation path and an optional
passphrase), the `blake160` hash, the two SDK address encoders
(`PlatformAddress.fromAccountId` and
`AssetTransferAddress.fromTypeAndPayload`, each also taking the
networkId), the two ledger probes (`getPlatformAccount`, modelled by the
nonce it reports, and `getAggsUTXOList`), and the session passphrase
(`getPassphrase`). -/
structure KeystoreEnv where
  getPublicKeyFromSeed : String → Option String → String
  blake160 : String → String
  platformAddressFromAccountId : String → String → String
  assetAddressFromTypeAndPayload : Nat → String → String → String
  getPlatformAccountNonce : String → String → Nat
  getAggsUTXOList : String → String → List Unit
  passphrase : String

/-- `keystore.ts` line 69: the platform-role derivation path prefix. -/
def platformAddressPath : String := "m/44'/3276/0'/0/"

/-- `keystore.ts` line 70: the asset-role derivation path prefix. -/
def assetAddressPath : String := "m/44'/3276/1'/0/"

/-- `keystore.ts` line 71: `restoringCheckingRange = 10`, the scan range. -/
def restoringCheckingRange : Nat := 10

/-- `_.last(keys)!.pathIndex` for a non-empty list (0 is a dummy for the
empty list, on which the source never takes this branch). -/
def lastPathIndex (keys : List StoredKey) : Nat :=
  match keys.getLast? with
  | some k => k.pathIndex
  | none => 0

/-- The JS guard `savedKeys && savedKeys.length > 0`: `getPlatformKeys` /
`getAssetKeys` may return `null` (modelled as `none`). -/
def storedKeysNonEmpty : Option (List StoredKey) → Bool
  | none => false
  | some keys => decide (0 < keys.length)

/-- `createPlatformAddress` (`keystore.ts` lines 121-163).  The stored
key list read from storage is passed in as `savedPlatformKeys`; the pair
returned is (the `WalletAddress` the function returns, the list passed
to `savePlatformKeys`). -/
def createPlatformAddress (env : KeystoreEnv)
    (savedPlatformKeys : Option (List StoredKey)) (networkId : String) :
    WalletAddress × List StoredKey :=
  let pathIndex :=
    if storedKeysNonEmpty savedPlatformKeys then
      lastPathIndex (savedPlatformKeys.getD []) + 1
    else 0
  let newPathIndex := pathIndex + 1
  let platformPubkey :=
    env.getPublicKeyFromSeed (platformAddressPath ++ Nat.repr newPathIndex) none
  let key := env.blake160 platformPubkey
  let newRecord : StoredKey :=
    { pathIndex := newPathIndex, type := AddressType.Platform, key := key }
  let saved :=
    if storedKeysNonEmpty savedPlatformKeys then
      savedPlatformKeys.getD [] ++ [newRecord]
    else [newRecord]
  let address := env.platformAddressFromAccountId key networkId
  ({ name := "P-address " ++ Nat.repr newPathIndex,
     address := address,
     type := AddressType.Platform }, saved)

/-- `createAssetAddress` (`keystore.ts` lines 165-207).  Note two
peculiarities of the source, both preserved here: the public key is
derived at `assetAddressPath + pathIndex` (line 178), not at
`newPathIndex`; and the stored record is tagged `AddressType.Platform`
(lines 186 and 194) although it is saved through `saveAssetKeys` and the
returned address is tagged `AddressType.Asset`. -/
def createAssetAddress (env : KeystoreEnv)
    (savedAssetKeys : Option (List StoredKey)) (networkId : String) :
    WalletAddress × List StoredKey :=
  let pathIndex :=
    if storedKeysNonEmpty savedAssetKeys then
      lastPathIndex (savedAssetKeys.getD []) + 1
    else 0
  let newPathIndex := pathIndex + 1
  let assetPubKey :=
    env.getPublicKeyFromSeed (assetAddressPath ++ Nat.repr pathIndex) none
  let key := env.blake160 assetPubKey
  let newRecord : StoredKey :=
    { pathIndex := newPathIndex, type := AddressType.Platform, key := key }
  let saved :=
    if storedKeysNonEmpty savedAssetKeys then
      savedAssetKeys.getD [] ++ [newRecord]
    else [newRecord]
  let address := env.assetAddressFromTypeAndPayload 1 key networkId
  ({ name := "A-address " ++ Nat.repr newPathIndex,
     address := address,
     type := AddressType.Asset }, saved)

/-- The derived-key fingerprint the platform scan computes at index `i`
(`keystore.ts` lines 83-88): `blake160` of the public key derived at
`platformAddressPath + i` with the session passphrase. -/
def platformKeyAt (env : KeystoreEnv) (i : Nat) : String :=
  env.blake160
    (env.getPublicKeyFromSeed (platformAddressPath ++ Nat.repr i) (some env.passphrase))

/-- The candidate platform address at index `i` (`keystore.ts` lines
89-91): `PlatformAddress.fromAccountId(key, { networkId }).value`. -/
def platformAddressAt (env : KeystoreEnv) (networkId : String) (i : Nat) : String :=
  env.platformAddressFromAccountId (platformKeyAt env i) networkId

/-- The platform usage probe at index `i` (`keystore.ts` lines 92-93):
`account.nonce.value.toString(10) !== "0"`. -/
def platformUsedAt (env : KeystoreEnv) (networkId : String) (i : Nat) : Bool :=
  Nat.repr (env.getPlatformAccountNonce (platformAddressAt env networkId i) networkId)
    != "0"

/-- The `WalletAddress` the platform scan pushes at index `i`
(`keystore.ts` lines 96-100). -/
def platformAddrEntry (env : KeystoreEnv) (networkId : String) (i : Nat) : WalletAddress :=
  { name := "P-address " ++ Nat.repr i,
    address := platformAddressAt env networkId i,
    type := AddressType.Platform }

/-- The `StoredKey` the platform scan pushes at index `i` (`keystore.ts`
lines 101-105). -/
def platformKeyEntry (env : KeystoreEnv) (i : Nat) : StoredKey :=
  { pathIndex := i, type := AddressType.Platform, key := platformKeyAt env i }

/-- The derived-key fingerprint the asset scan computes at index `i`
(`keystore.ts` lines 219-224). -/
def assetKeyAt (env : KeystoreEnv) (i : Nat) : String :=
  env.blake160
    (env.getPublicKeyFromSeed (assetAddressPath ++ Nat.repr i) (some env.passphrase))

/-- The candidate asset address at index `i` (`keystore.ts` lines
225-227): `AssetTransferAddress.fromTypeAndPayload(1, key, { networkId })`. -/
def assetAddressAt (env : KeystoreEnv) (networkId : String) (i : Nat) : String :=
  env.assetAddressFromTypeAndPayload 1 (assetKeyAt env i) networkId

/-- The asset usage probe at index `i` (`keystore.ts` lines 228-229):
`aggsUTXO.length !== 0`. -/
def assetUsedAt (env : KeystoreEnv) (networkId : String) (i : Nat) : Bool :=
  (env.getAggsUTXOList (assetAddressAt env networkId i) networkId).length != 0

/-- The `WalletAddress` the asset scan pushes at index `i` (`keystore.ts`
lines 232-236). -/
def assetAddrEntry (env : KeystoreEnv) (networkId : String) (i : Nat) : WalletAddress :=
  { name := "A-address " ++ Nat.repr i,
    address := assetAddressAt env networkId i,
    type := AddressType.Asset }

/-- The `StoredKey` the asset scan pushes at index `i` (`keystore.ts`
lines 237-241). -/
def assetKeyEntry (env : KeystoreEnv) (i : Nat) : StoredKey :=
  { pathIndex := i, type := AddressType.Asset, key := assetKeyAt env i }

/-- The JS truthiness test `!lastValidPathIndex` applied to a
`number | undefined | null` variable (`keystore.ts` lines 110 and 247):
`undefined`/`null` is falsy, and so is the number `0`. -/
def jsFalsyIndex : Option Nat → Bool
  | none => true
  | some n => n == 0

/-- The `while (currentPath < restoringCheckingRange)` scan loop of
`restorePlatformAddresses` (`keystore.ts` lines 78-107), run for the
first `n` indices: it accumulates the pushed addresses, the pushed key
records, and `lastValidPlatfromPathIndex` (updated to `currentPath`
whenever the probe reports usage). -/
def restorePlatformScanUpTo (env : KeystoreEnv) (networkId : String) (n : Nat) :
    List WalletAddress × List StoredKey × Option Nat :=
  (List.range n).foldl
    (fun acc currentPath =>
      (acc.1 ++ [platformAddrEntry env networkId currentPath],
       acc.2.1 ++ [platformKeyEntry env currentPath],
       if platformUsedAt env networkId currentPath then some currentPath else acc.2.2))
    ([], [], none)

/-- `restorePlatformAddresses` (`keystore.ts` lines 73-119).  The pair
returned is (the address list the function returns, the list passed to
`savePlatformKeys`).  Line 110 reads `if (!lastValidPlatfromPathIndex)`,
a JS truthiness test, embedded by `jsFalsyIndex`. -/
def restorePlatformAddresses (env : KeystoreEnv) (networkId : String) :
    List WalletAddress × List StoredKey :=
  match restorePlatformScanUpTo env networkId restoringCheckingRange with
  | (platformAddresses, platformKeys, lastValidPlatfromPathIndex) =>
    if jsFalsyIndex lastValidPlatfromPathIndex then ([], [])
    else
      (platformAddresses.take (lastValidPlatfromPathIndex.getD 0 + 1),
       platformKeys.take (lastValidPlatfromPathIndex.getD 0 + 1))

/-- The scan loop of `restoreAssetAddresses` (`keystore.ts` lines
214-243), run for the first `n` indices. -/
def restoreAssetScanUpTo (env : KeystoreEnv) (networkId : String) (n : Nat) :
    List WalletAddress × List StoredKey × Option Nat :=
  (List.range n).foldl
    (fun acc currentPath =>
      (acc.1 ++ [assetAddrEntry env networkId currentPath],
       acc.2.1 ++ [assetKeyEntry env currentPath],
       if assetUsedAt env networkId currentPath then some currentPath else acc.2.2))
    ([], [], none)

/-- `restoreAssetAddresses` (`keystore.ts` lines 209-256).  The pair
returned is (the address list the function returns, the list passed to
`saveAssetKeys`).  Line 247 reads `if (!lastValidAssetPathIndex)`. -/
def restoreAssetAddresses (env : KeystoreEnv) (networkId : String) :
    List WalletAddress × List StoredKey :=
  match restoreAssetScanUpTo env networkId restoringCheckingRange with
  | (assetAddresses, assetKeys, lastValidAssetPathIndex) =>
    if jsFalsyIndex lastValidAssetPathIndex then ([], [])
    else
      (assetAddresses.take (lastValidAssetPathIndex.getD 0 + 1),
       assetKeys.take (lastValidAssetPathIndex.getD 0 + 1))

/-! ## Chain reducer (`src/redux/chain/chainReducer.ts`) -/

/-- Opaque stand-in for the external `TransactionDoc` type of
`codechain-indexer-types`; the reducer never inspects it. -/
abbrev TransactionDoc : Type := Unit

/-- Opaque stand-in for the SDK's `H160`, identified with its `.value`
string, which is all the reducer uses of it. -/
abbrev H160 : Type := String

/-- One cache slot `{ data?, isFetching, updatedAt? }` of `ChainState`;
`data` carries `α` (a transaction-document list or a number).  `none`
models an absent-or-null optional field. -/
structure CacheEntry (α : Type) where
  data : Option α
  isFetching : Bool
  updatedAt : Option Int
deriving DecidableEq

/-- A JS object used as a map with possibly missing (or null) entries. -/
def EntryMap (α : Type) : Type := String → Option (CacheEntry α)

/-- `ChainState` (`chainReducer.ts` lines 5-53). -/
structure ChainState where
  pendingTxList : EntryMap (List TransactionDoc)
  txList : EntryMap (List TransactionDoc)
  countOfTxList : EntryMap Int
  pendingTxListById : EntryMap (List TransactionDoc)
  txListById : EntryMap (List TransactionDoc)
  countOfTxListById : EntryMap Int
  bestBlockNumber : Option (CacheEntry Int)

/-- `chainInitState` (`chainReducer.ts` lines 55-63). -/
def chainInitState : ChainState :=
  { pendingTxList := fun _ => none
    txList := fun _ => none
    countOfTxList := fun _ => none
    bestBlockNumber := none
    txListById := fun _ => none
    countOfTxListById := fun _ => none
    pendingTxListById := fun _ => none }

/-- `getIdByAddressAssetType` (`chainReducer.ts` lines 65-67). -/
def getIdByAddressAssetType (address : String) (assetType : H160) : String :=
  address ++ "-" ++ assetType

/-- The actions `chainReducer` handles (`chainActions.ts` is not part of
the sources; each variant's payload is exactly the fields the reducer
reads from `action.data`). -/
inductive Action where
  | cachePendingTxList (address : String) (pendingTxList : List TransactionDoc)
  | setFetchingPendingTxList (address : String)
  | updateBestBlockNumber (bestBlockNumber : Int)
  | setFetchingBestBlockNumber
  | cacheTxList (address : String) (txList : List TransactionDoc)
  | setFetchingTxList (address : String)
  | setFetchingCountOfTxList (address : String)
  | setFetchingCountOfTxListById (address : String) (assetType : H160)
  | cacheCountOfTxList (address : String) (count : Int)
  | cacheCountOfTxListById (address : String) (assetType : H160) (count : Int)
  | setFetchingTxListById (address : String) (assetType : H160)
  | cacheTxListById (address : String) (assetType : H160) (txList : List TransactionDoc)

/-- The JS spread `{ ...m[k], isFetching: true }` over a possibly
missing entry: missing fields of an absent entry stay absent. -/
def spreadSetFetching {α : Type} (e : Option (CacheEntry α)) : CacheEntry α :=
  match e with
  | none => { data := none, isFetching := true, updatedAt := none }
  | some e => { e with isFetching := true }

/-- The JS computed-key update `{ ...m, [k]: v }`. -/
def updateMap {α : Type} (m : EntryMap α) (k : String) (v : CacheEntry α) : EntryMap α :=
  fun a => if a = k then some v else m a

/-- `chainReducer` (`chainReducer.ts` lines 69-248).  `+new Date()` is
modelled by the explicit `now` argument. -/
def chainReducer (state : ChainState) (action : Action) (now : Int) : ChainState :=
  match action with
  | .cachePendingTxList address pendingTxList =>
    let currentPendingTxList : CacheEntry (List TransactionDoc) :=
      { data := some pendingTxList, updatedAt := some now, isFetching := false }
    { state with
      pendingTxList := updateMap state.pendingTxList address currentPendingTxList }
  | .setFetchingPendingTxList address =>
    let currentPendingTxList := spreadSetFetching (state.pendingTxList address)
    { state with
      pendingTxList := updateMap state.pendingTxList address currentPendingTxList }
  | .updateBestBlockNumber bestBlockNumber =>
    { state with
      bestBlockNumber :=
        some { data := some bestBlockNumber, updatedAt := some now, isFetching := false } }
  | .setFetchingBestBlockNumber =>
    { state with bestBlockNumber := some (spreadSetFetching state.bestBlockNumber) }
  | .cacheTxList address txList =>
    let currentTxList : CacheEntry (List TransactionDoc) :=
      { data := some txList, updatedAt := some now, isFetching := false }
    { state with txList := updateMap state.txList address currentTxList }
  | .setFetchingTxList address =>
    let currentTxList := spreadSetFetching (state.txList address)
    { state with txList := updateMap state.txList address currentTxList }
  | .setFetchingCountOfTxList address =>
    { state with
      countOfTxList :=
        updateMap state.countOfTxList address
          (spreadSetFetching (state.countOfTxList address)) }
  | .setFetchingCountOfTxListById address assetType =>
    let id := getIdByAddressAssetType address assetType
    { state with
      countOfTxListById :=
        updateMap state.countOfTxListById id
          (spreadSetFetching (state.countOfTxListById id)) }
  | .cacheCountOfTxList address count =>
    { state with
      countOfTxList :=
        updateMap state.countOfTxList address
          { data := some count, isFetching := false, updatedAt := some now } }
  | .cacheCountOfTxListById address assetType count =>
    let id := getIdByAddressAssetType address assetType
    { state with
      countOfTxListById :=
        updateMap state.countOfTxListById id
          { data := some count, isFetching := false, updatedAt := some now } }
  | .setFetchingTxListById address assetType =>
    let id := getIdByAddressAssetType address assetType
    let currentTxList := spreadSetFetching (state.txListById id)
    { state with txListById := updateMap state.txListById id currentTxList }
  | .cacheTxListById address assetType txList =>
    let id := getIdByAddressAssetType address assetType
    let currentTxList : CacheEntry (List TransactionDoc) :=
      { data := some txList, updatedAt := some now, isFetching := false }
    { state with txListById := updateMap state.txListById id currentTxList }

/-! ## Decimal printing facts

`keystore.ts` builds derivation paths by appending a decimal index to a
fixed prefix (`platformAddressPath + currentPath`).  To reason about
distinctness of paths we prove that `Nat.repr` (the embedding of JS
number-to-string conversion) is injective, by exhibiting a decoder. -/

/-- Numeric value of a decimal digit character. -/
def decDigitVal (c : Char) : Nat := c.toNat - 48

/-- Decimal value of a digit string, starting from accumulator `a`. -/
def decValueFrom (a : Nat) (l : List Char) : Nat :=
  l.foldl (fun acc c => 10 * acc + decDigitVal c) a

/-- Decimal value of a digit string. -/
def decValue (l : List Char) : Nat := decValueFrom 0 l

theorem decDigitVal_digitChar : ∀ d, d < 10 → decDigitVal (Nat.digitChar d) = d := by
  decide

theorem decValueFrom_append (a : Nat) (l1 l2 : List Char) :
    decValueFrom a (l1 ++ l2) = decValueFrom (decValueFrom a l1) l2 := by
  simp [decValueFrom, List.foldl_append]

theorem toDigitsCore_append (b : Nat) :
    ∀ (f n : Nat) (ds : List Char),
      Nat.toDigitsCore b f n ds = Nat.toDigitsCore b f n [] ++ ds := by
  intro f
  induction f with
  | zero => intro n ds; simp [Nat.toDigitsCore]
  | succ f ih =>
    intro n ds
    simp only [Nat.toDigitsCore]
    by_cases h : n / b = 0
    · simp [h]
    · simp only [h, if_false]
      rw [ih (n / b) (Nat.digitChar (n % b) :: ds), ih (n / b) [Nat.digitChar (n % b)]]
      simp

theorem decValue_toDigitsCore :
    ∀ n f, n < f → decValue (Nat.toDigitsCore 10 f n []) = n := by
  intro n
  induction n using Nat.strong_induction_on with
  | _ n ih =>
    intro f hf
    match f, hf with
    | f + 1, hf =>
      simp only [Nat.toDigitsCore]
      by_cases h : n / 10 = 0
      · have hn : n < 10 := by
          by_contra hge
          push_neg at hge
          have : 0 < n / 10 := Nat.div_pos hge (by omega)
          omega
        simp only [h, if_true]
        simp [decValue, decValueFrom, Nat.mod_eq_of_lt hn, decDigitVal_digitChar n hn]
      · have hn0 : 0 < n := by
          rcases Nat.eq_zero_or_pos n with h0 | h0
          · exact absurd (by simp [h0]) h
          · exact h0
        have hdivlt : n / 10 < n := Nat.div_lt_self hn0 (by omega)
        have hdivf : n / 10 < f := by omega
        simp only [h, if_false]
        rw [toDigitsCore_append]
        unfold decValue
        rw [decValueFrom_append]
        have hX : decValue (Nat.toDigitsCore 10 f (n / 10) []) = n / 10 :=
          ih (n / 10) hdivlt f hdivf
        unfold decValue at hX
        rw [hX]
        simp [decValueFrom, decDigitVal_digitChar (n % 10) (Nat.mod_lt n (by omega))]
        omega

theorem decValue_repr (n : Nat) : decValue (Nat.repr n).data = n := by
  have h : (Nat.repr n).data = Nat.toDigitsCore 10 (n + 1) n [] := rfl
  rw [h]
  exact decValue_toDigitsCore n (n + 1) (Nat.lt_succ_self n)

theorem repr_data_inj {m n : Nat} (h : (Nat.repr m).data = (Nat.repr n).data) : m = n := by
  have hm := decValue_repr m
  rw [h, decValue_repr] at hm
  exact hm.symm

/-- The path the source builds inline for a role at an index: the
role's prefix constant (`keystore.ts` lines 69-70) with the decimal
index appended, as in `platformAddressPath + currentPath`. -/
def pathFor (t : AddressType) (i : Nat) : String :=
  match t with
  | AddressType.Platform => platformAddressPath ++ Nat.repr i
  | AddressType.Asset => assetAddressPath ++ Nat.repr i

/-- C8: the derivation path function is injective — for every role,
distinct indices yield distinct path strings, and at every index the
Platform-role path differs from the Asset-role path. -/
theorem pathFor_injective :
    (∀ (t : AddressType) (i j : Nat), i ≠ j → pathFor t i ≠ pathFor t j) ∧
    (∀ i : Nat, pathFor AddressType.Platform i ≠ pathFor AddressType.Asset i) := by
  constructor
  · intro t i j hne heq
    apply hne
    apply repr_data_inj
    cases t <;>
    · have hd := congrArg String.data heq
      simp only [pathFor, String.data_append] at hd
      exact List.append_cancel_left hd
  · intro i heq
    have hd := congrArg String.data heq
    simp only [pathFor, String.data_append] at hd
    have hpre : platformAddressPath.data = assetAddressPath.data :=
      List.append_inj_left' hd rfl
    exact absurd hpre (by decide)

/-- Concrete instance of `pathFor_injective`: indices 0 and 1 give
distinct Platform paths, and index 5 gives distinct paths per role. -/
theorem pathFor_injective_witness :
    pathFor AddressType.Platform 0 ≠ pathFor AddressType.Platform 1 ∧
    pathFor AddressType.Platform 5 ≠ pathFor AddressType.Asset 5 :=
  ⟨pathFor_injective.1 AddressType.Platform 0 1 (by decide),
   pathFor_injective.2 5⟩

/-! ## Concrete environments for witnesses -/

/-- A concrete environment: derivation returns its path argument,
hashing is the identity, the encoders tag their inputs with the
networkId, and the ledger reports no usage anywhere. -/
def testEnv : KeystoreEnv :=
  { getPublicKeyFromSeed := fun path _ => path
    blake160 := fun s => s
    platformAddressFromAccountId := fun accountId networkId =>
      "p:" ++ accountId ++ ":" ++ networkId
    assetAddressFromTypeAndPayload := fun tag payload networkId =>
      "a" ++ Nat.repr tag ++ ":" ++ payload ++ ":" ++ networkId
    getPlatformAccountNonce := fun _ _ => 0
    getAggsUTXOList := fun _ _ => []
    passphrase := "pw" }

/-- `testEnv` with usage evidence exactly at index 0 (both roles) on
network "tc". -/
def envUsedAtZero : KeystoreEnv :=
  { testEnv with
    getPlatformAccountNonce := fun address _ =>
      if address = platformAddressAt testEnv "tc" 0 then 1 else 0
    getAggsUTXOList := fun address _ =>
      if address = assetAddressAt testEnv "tc" 0 then [()] else [] }

/-- `testEnv` with usage evidence exactly at indices 2 and 7 (both
roles) on network "tc". -/
def envUsedAtTwoSeven : KeystoreEnv :=
  { testEnv with
    getPlatformAccountNonce := fun address _ =>
      if address = platformAddressAt testEnv "tc" 2 ∨
          address = platformAddressAt testEnv "tc" 7 then 1 else 0
    getAggsUTXOList := fun address _ =>
      if address = assetAddressAt testEnv "tc" 2 ∨
          address = assetAddressAt testEnv "tc" 7 then [()] else [] }

/-! ## Issuance claims -/

/-- C5: for both roles, issuance on an empty Key Index (a `null` or
empty stored list) persists exactly one record, and that record carries
pathIndex 1 (base defaults to 0, and the allocated index is base + 1). -/
theorem create_on_empty_index_pathIndex_one (env : KeystoreEnv) (networkId : String)
    (saved : Option (List StoredKey)) (h : storedKeysNonEmpty saved = false) :
    (createPlatformAddress env saved networkId).2.map (fun k => k.pathIndex) = [1] ∧
    (createAssetAddress env saved networkId).2.map (fun k => k.pathIndex) = [1] := by
  constructor <;> simp [createPlatformAddress, createAssetAddress, h]

/-- `create_on_empty_index_pathIndex_one` at `testEnv`, a `null` stored
list and network "tc". -/
theorem create_on_empty_index_pathIndex_one_witness :
    (createPlatformAddress testEnv none "tc").2.map (fun k => k.pathIndex) = [1] ∧
    (createAssetAddress testEnv none "tc").2.map (fun k => k.pathIndex) = [1] :=
  create_on_empty_index_pathIndex_one testEnv "tc" none rfl

/-- C2 (amended): with a non-empty stored Key Index, issuance allocates
newIndex = (pathIndex of the last stored record) + 2 — the source adds
one to the last pathIndex and then one more — and appends exactly one
record carrying that pathIndex, for both roles. -/
theorem create_allocates_last_plus_two (env : KeystoreEnv) (networkId : String)
    (keys : List StoredKey) (h : keys ≠ []) :
    (createPlatformAddress env (some keys) networkId).2.map (fun k => k.pathIndex)
      = keys.map (fun k => k.pathIndex) ++ [lastPathIndex keys + 2] ∧
    (createAssetAddress env (some keys) networkId).2.map (fun k => k.pathIndex)
      = keys.map (fun k => k.pathIndex) ++ [lastPathIndex keys + 2] := by
  have hne : storedKeysNonEmpty (some keys) = true := by
    simp [storedKeysNonEmpty, List.length_pos, h]
  constructor <;>
    simp [createPlatformAddress, createAssetAddress, hne, Nat.add_assoc]

/-- A sample stored record at pathIndex 0 for witnesses. -/
def sampleKeyZero : StoredKey :=
  { pathIndex := 0, type := AddressType.Platform, key := "k" }

/-- C2 counterexample: with a single stored record of pathIndex 0,
issuance appends pathIndex 2, not (last record's pathIndex) + 1 = 1. -/
theorem create_allocates_counterexample :
    ¬ (createPlatformAddress testEnv (some [sampleKeyZero]) "tc").2.map
        (fun k => k.pathIndex) = [0, 1] := by
  decide

/-- `create_allocates_last_plus_two` at `testEnv` with one stored record
of pathIndex 0: both roles persist pathIndexes [0, 2]. -/
theorem create_allocates_last_plus_two_witness :
    (createPlatformAddress testEnv (some [sampleKeyZero]) "tc").2.map
        (fun k => k.pathIndex)
      = [sampleKeyZero].map (fun k => k.pathIndex) ++
        [lastPathIndex [sampleKeyZero] + 2] ∧
    (createAssetAddress testEnv (some [sampleKeyZero]) "tc").2.map
        (fun k => k.pathIndex)
      = [sampleKeyZero].map (fun k => k.pathIndex) ++
        [lastPathIndex [sampleKeyZero] + 2] :=
  create_allocates_last_plus_two testEnv "tc" [sampleKeyZero] (by decide)

/-- C3 at a concrete input (Asset role, empty Key Index, an environment
whose derivation returns its path argument and whose hash is the
identity): the persisted record carries pathIndex 1 and the display name
says 1, but the stored key was derived at the path of index 0. -/
theorem createAssetAddress_derivation_index_mismatch :
    (createAssetAddress testEnv none "tc").2 =
      [{ pathIndex := 1, type := AddressType.Platform, key := "m/44'/3276/1'/0/0" }] ∧
    (createAssetAddress testEnv none "tc").1.name = "A-address 1" := by
  decide

/-- C4 at a concrete input: the record `createAssetAddress` persists is
tagged `AddressType.Platform`, while the address it returns is tagged
`AddressType.Asset`. -/
theorem createAssetAddress_saves_platform_tag :
    (createAssetAddress testEnv none "tc").2.map (fun k => k.type) =
      [AddressType.Platform] ∧
    (createAssetAddress testEnv none "tc").1.type = AddressType.Asset := by
  decide

/-! ## Discovery claims -/

/-- C6: for both roles, if the probe reports no usage evidence at any
index of the scan range, discovery returns the empty address list and
persists the empty key-record list. -/
theorem restore_no_usage_returns_empty (env : KeystoreEnv) (networkId : String)
    (hp : ∀ i, i < restoringCheckingRange → platformUsedAt env networkId i = false)
    (ha : ∀ i, i < restoringCheckingRange → assetUsedAt env networkId i = false) :
    restorePlatformAddresses env networkId = ([], []) ∧
    restoreAssetAddresses env networkId = ([], []) := by
  have hrange : List.range restoringCheckingRange = [0, 1, 2, 3, 4, 5, 6, 7, 8, 9] := rfl
  constructor
  · unfold restorePlatformAddresses restorePlatformScanUpTo
    rw [hrange]
    simp only [List.foldl_cons, List.foldl_nil, hp 0 (by decide), hp 1 (by decide),
      hp 2 (by decide), hp 3 (by decide), hp 4 (by decide), hp 5 (by decide),
      hp 6 (by decide), hp 7 (by decide), hp 8 (by decide), hp 9 (by decide)]
    simp [jsFalsyIndex]
  · unfold restoreAssetAddresses restoreAssetScanUpTo
    rw [hrange]
    simp only [List.foldl_cons, List.foldl_nil, ha 0 (by decide), ha 1 (by decide),
      ha 2 (by decide), ha 3 (by decide), ha 4 (by decide), ha 5 (by decide),
      ha 6 (by decide), ha 7 (by decide), ha 8 (by decide), ha 9 (by decide)]
    simp [jsFalsyIndex]

/-- `restore_no_usage_returns_empty` at `testEnv` (whose ledger reports
no usage anywhere) and network "tc". -/
theorem restore_no_usage_returns_empty_witness :
    restorePlatformAddresses testEnv "tc" = ([], []) ∧
    restoreAssetAddresses testEnv "tc" = ([], []) :=
  restore_no_usage_returns_empty testEnv "tc" (by decide) (by decide)

/-- C1 as the code behaves: if the probe reports usage evidence at index
0 and at no other scanned index, discovery returns the EMPTY address
list and persists the EMPTY key-record list for both roles — the
`!lastValidPathIndex` truthiness test treats the index 0 as "no usage",
so the one used address is lost, contradicting the claim's "exactly one
address". -/
theorem restore_used_only_at_zero_returns_empty (env : KeystoreEnv) (networkId : String)
    (hp : ∀ i, i < restoringCheckingRange →
      platformUsedAt env networkId i = decide (i = 0))
    (ha : ∀ i, i < restoringCheckingRange →
      assetUsedAt env networkId i = decide (i = 0)) :
    restorePlatformAddresses env networkId = ([], []) ∧
    restoreAssetAddresses env networkId = ([], []) := by
  have hrange : List.range restoringCheckingRange = [0, 1, 2, 3, 4, 5, 6, 7, 8, 9] := rfl
  constructor
  · unfold restorePlatformAddresses restorePlatformScanUpTo
    rw [hrange]
    simp only [List.foldl_cons, List.foldl_nil, hp 0 (by decide), hp 1 (by decide),
      hp 2 (by decide), hp 3 (by decide), hp 4 (by decide), hp 5 (by decide),
      hp 6 (by decide), hp 7 (by decide), hp 8 (by decide), hp 9 (by decide)]
    simp [jsFalsyIndex]
  · unfold restoreAssetAddresses restoreAssetScanUpTo
    rw [hrange]
    simp only [List.foldl_cons, List.foldl_nil, ha 0 (by decide), ha 1 (by decide),
      ha 2 (by decide), ha 3 (by decide), ha 4 (by decide), ha 5 (by decide),
      ha 6 (by decide), ha 7 (by decide), ha 8 (by decide), ha 9 (by decide)]
    simp [jsFalsyIndex]

/-- `restore_used_only_at_zero_returns_empty` at `envUsedAtZero` and
network "tc". -/
theorem restore_used_only_at_zero_returns_empty_witness :
    restorePlatformAddresses envUsedAtZero "tc" = ([], []) ∧
    restoreAssetAddresses envUsedAtZero "tc" = ([], []) :=
  restore_used_only_at_zero_returns_empty envUsedAtZero "tc" (by decide) (by decide)

/-- C7: for both roles, if the probe reports usage evidence exactly at
indices 2 and 7, discovery returns the eight addresses of indices 0
through 7 in increasing index order — the unused indices 0, 1, 3, 4, 5
and 6 included — and persists the matching eight key records. -/
theorem restore_used_at_two_and_seven (env : KeystoreEnv) (networkId : String)
    (hp : ∀ i, i < restoringCheckingRange →
      platformUsedAt env networkId i = decide (i = 2 ∨ i = 7))
    (ha : ∀ i, i < restoringCheckingRange →
      assetUsedAt env networkId i = decide (i = 2 ∨ i = 7)) :
    restorePlatformAddresses env networkId =
      ((List.range 8).map (platformAddrEntry env networkId),
       (List.range 8).map (platformKeyEntry env)) ∧
    restoreAssetAddresses env networkId =
      ((List.range 8).map (assetAddrEntry env networkId),
       (List.range 8).map (assetKeyEntry env)) := by
  have hrange : List.range restoringCheckingRange = [0, 1, 2, 3, 4, 5, 6, 7, 8, 9] := rfl
  have hrange8 : List.range 8 = [0, 1, 2, 3, 4, 5, 6, 7] := rfl
  constructor
  · unfold restorePlatformAddresses restorePlatformScanUpTo
    rw [hrange, hrange8]
    simp only [List.foldl_cons, List.foldl_nil, hp 0 (by decide), hp 1 (by decide),
      hp 2 (by decide), hp 3 (by decide), hp 4 (by decide), hp 5 (by decide),
      hp 6 (by decide), hp 7 (by decide), hp 8 (by decide), hp 9 (by decide)]
    simp [jsFalsyIndex]
  · unfold restoreAssetAddresses restoreAssetScanUpTo
    rw [hrange, hrange8]
    simp only [List.foldl_cons, List.foldl_nil, ha 0 (by decide), ha 1 (by decide),
      ha 2 (by decide), ha 3 (by decide), ha 4 (by decide), ha 5 (by decide),
      ha 6 (by decide), ha 7 (by decide), ha 8 (by decide), ha 9 (by decide)]
    simp [jsFalsyIndex]

/-- `restore_used_at_two_and_seven` at `envUsedAtTwoSeven` and network
"tc". -/
theorem restore_used_at_two_and_seven_witness :
    restorePlatformAddresses envUsedAtTwoSeven "tc" =
      ((List.range 8).map (platformAddrEntry envUsedAtTwoSeven "tc"),
       (List.range 8).map (platformKeyEntry envUsedAtTwoSeven)) ∧
    restoreAssetAddresses envUsedAtTwoSeven "tc" =
      ((List.range 8).map (assetAddrEntry envUsedAtTwoSeven "tc"),
       (List.range 8).map (assetKeyEntry envUsedAtTwoSeven)) :=
  restore_used_at_two_and_seven envUsedAtTwoSeven "tc" (by decide) (by decide)

/-- C9: discovery is deterministic — two runs against environments whose
derivation, hashing, encoding and probe responses agree pointwise (and
whose passphrases agree) return identical address lists and persist
identical key-record lists, for both roles. -/
theorem restore_deterministic (env1 env2 : KeystoreEnv) (networkId : String)
    (hderive : ∀ path pass,
      env1.getPublicKeyFromSeed path pass = env2.getPublicKeyFromSeed path pass)
    (hblake : ∀ s, env1.blake160 s = env2.blake160 s)
    (hpaddr : ∀ k n,
      env1.platformAddressFromAccountId k n = env2.platformAddressFromAccountId k n)
    (haaddr : ∀ t p n,
      env1.assetAddressFromTypeAndPayload t p n = env2.assetAddressFromTypeAndPayload t p n)
    (hnonce : ∀ a n, env1.getPlatformAccountNonce a n = env2.getPlatformAccountNonce a n)
    (hutxo : ∀ a n, env1.getAggsUTXOList a n = env2.getAggsUTXOList a n)
    (hpass : env1.passphrase = env2.passphrase) :
    restorePlatformAddresses env1 networkId = restorePlatformAddresses env2 networkId ∧
    restoreAssetAddresses env1 networkId = restoreAssetAddresses env2 networkId := by
  have h1 : env1.getPublicKeyFromSeed = env2.getPublicKeyFromSeed := by
    funext p q; exact hderive p q
  have h2 : env1.blake160 = env2.blake160 := by funext s; exact hblake s
  have h3 : env1.platformAddressFromAccountId = env2.platformAddressFromAccountId := by
    funext k n; exact hpaddr k n
  have h4 : env1.assetAddressFromTypeAndPayload = env2.assetAddressFromTypeAndPayload := by
    funext t p n; exact haaddr t p n
  have h5 : env1.getPlatformAccountNonce = env2.getPlatformAccountNonce := by
    funext a n; exact hnonce a n
  have h6 : env1.getAggsUTXOList = env2.getAggsUTXOList := by
    funext a n; exact hutxo a n
  have henv : env1 = env2 := by
    cases env1; cases env2; simp_all
  rw [henv]
  exact ⟨rfl, rfl⟩

/-- `restore_deterministic` applied to two copies of `testEnv`. -/
theorem restore_deterministic_witness :
    restorePlatformAddresses testEnv "tc" = restorePlatformAddresses testEnv "tc" ∧
    restoreAssetAddresses testEnv "tc" = restoreAssetAddresses testEnv "tc" :=
  restore_deterministic testEnv testEnv "tc" (fun _ _ => rfl) (fun _ => rfl)
    (fun _ _ => rfl) (fun _ _ _ => rfl) (fun _ _ => rfl) (fun _ _ => rfl) rfl

/-! ## Chain reducer claim -/

/-- C10: on a `CachePendingTxList` action, `chainReducer` changes the
state only at `pendingTxList[address]`: every other field of
`ChainState` is unchanged, every other address entry of `pendingTxList`
is unchanged, and the entry at `address` becomes the freshly cached
one. -/
theorem chainReducer_cachePendingTxList_frame (state : ChainState) (address : String)
    (txs : List TransactionDoc) (now : Int) (a : String) (ha : a ≠ address) :
    (chainReducer state (Action.cachePendingTxList address txs) now).txList
        = state.txList ∧
    (chainReducer state (Action.cachePendingTxList address txs) now).countOfTxList
        = state.countOfTxList ∧
    (chainReducer state (Action.cachePendingTxList address txs) now).txListById
        = state.txListById ∧
    (chainReducer state (Action.cachePendingTxList address txs) now).countOfTxListById
        = state.countOfTxListById ∧
    (chainReducer state (Action.cachePendingTxList address txs) now).pendingTxListById
        = state.pendingTxListById ∧
    (chainReducer state (Action.cachePendingTxList address txs) now).bestBlockNumber
        = state.bestBlockNumber ∧
    (chainReducer state (Action.cachePendingTxList address txs) now).pendingTxList a
        = state.pendingTxList a ∧
    (chainReducer state (Action.cachePendingTxList address txs) now).pendingTxList address
        = some { data := some txs, updatedAt := some now, isFetching := false } := by
  refine ⟨rfl, rfl, rfl, rfl, rfl, rfl, ?_, ?_⟩
  · simp [chainReducer, updateMap, ha]
  · simp [chainReducer, updateMap]

/-- `chainReducer_cachePendingTxList_frame` at the initial state,
address "addr", the empty transaction list, time 5 and the other
address "other". -/
theorem chainReducer_cachePendingTxList_frame_witness :
    (chainReducer chainInitState (Action.cachePendingTxList "addr" []) 5).txList
        = chainInitState.txList ∧
    (chainReducer chainInitState (Action.cachePendingTxList "addr" []) 5).countOfTxList
        = chainInitState.countOfTxList ∧
    (chainReducer chainInitState (Action.cachePendingTxList "addr" []) 5).txListById
        = chainInitState.txListById ∧
    (chainReducer chainInitState (Action.cachePendingTxList "addr" []) 5).countOfTxListById
        = chainInitState.countOfTxListById ∧
    (chainReducer chainInitState (Action.cachePendingTxList "addr" []) 5).pendingTxListById
        = chainInitState.pendingTxListById ∧
    (chainReducer chainInitState (Action.cachePendingTxList "addr" []) 5).bestBlockNumber
        = chainInitState.bestBlockNumber ∧
    (chainReducer chainInitState (Action.cachePendingTxList "addr" []) 5).pendingTxList "other"
        = chainInitState.pendingTxList "other" ∧
    (chainReducer chainInitState (Action.cachePendingTxList "addr" []) 5).pendingTxList "addr"
        = some { data := some [], updatedAt := some 5, isFetching := false } :=
  chainReducer_cachePendingTxList_frame chainInitState "addr" [] 5 "other" (by decide)

end CodechainWallet
